import Mathlib

/-!
Shallow embedding of the jxsl13/oidc repository for specification checking.

The first half embeds `verify.go` (the ID-Token verification pipeline of
`IDTokenVerifier.Verify`).  Effects are made explicit: the outcome of
`jose.ParseSigned` / `parseJWT` / `json.Unmarshal` is a `ParseResult` input,
the remote `keySet.Keys(ctx)` call is an `Except`-valued input together with
an invocation counter in the result, and per-key `jws.Verify(&key)` is a
function-valued input.  Machine time (`time.Time`) is embedded as `Int`
(unix time); `Before` is `<`.

The second half models the `OIDCTokenSource` state machine of
`login/token_src.go`, whose implementation is not part of the provided
sources (only its tests are); those definitions are modelled from the spec.
-/

namespace Oidc

/-- Decoded ID-Token claims, as produced by `json.Unmarshal` of the payload
segment in `Verify` (fields of the Go `IDToken` struct that the pipeline
reads). -/
structure IDToken where
  Issuer : String
  Subject : String
  Audience : List String
  Expiry : Int
  Nonce : String
deriving DecidableEq

/-- VerificationConfig from `verify.go`.  The `Now` clock function is
embedded as the instant it returns. -/
structure VerificationConfig where
  ClientID : String
  ClaimNonce : String
  SupportedSigningAlgs : List String
  Now : Int
deriving DecidableEq

/-- Header data of one JWS signature (`sig.Header` in `verify.go`). -/
structure SignatureHeader where
  Algorithm : String
  KeyID : String
deriving DecidableEq

/-- A JSON web key; the pipeline only reads its `KeyID`. -/
structure JSONWebKey where
  KeyID : String
deriving DecidableEq

/-- The parsed JWS envelope returned by `jose.ParseSigned`; the pipeline
reads its signature list. -/
structure JWS where
  Signatures : List SignatureHeader
deriving DecidableEq

/-- IDTokenVerifier from `verify.go`: configuration plus expected issuer.
The `keySet` collaborator is passed to `Verify` explicitly. -/
structure IDTokenVerifier where
  cfg : VerificationConfig
  issuer : String
deriving DecidableEq

/-- Constant `issuerGoogleAccounts` of `verify.go`. -/
def issuerGoogleAccounts : String := "https://accounts.google.com"

/-- Constant `issuerGoogleAccountsNoScheme` of `verify.go`. -/
def issuerGoogleAccountsNoScheme : String := "accounts.google.com"

/-- Helper `contains` of `verify.go`: linear scan with `==`. -/
def contains (sli : List String) (ele : String) : Bool :=
  match sli with
  | [] => false
  | s :: rest => if s = ele then true else contains rest ele

/-- Outcome of the parsing steps at the top of `Verify`
(`jose.ParseSigned`, `parseJWT`, `json.Unmarshal`): either some parse error
message, or the JWS envelope, the decoded claims and the raw payload
bytes (embedded as a `String`). -/
inductive ParseResult where
  | fail (msg : String)
  | ok (jws : JWS) (token : IDToken) (payload : String)
deriving DecidableEq

/-- Error taxonomy of `Verify`, one constructor per `return nil, err` site. -/
inductive VerifyError where
  | malformedJWT (msg : String)
  | issuerMismatch (expected got : String)
  | configurationError
  | audienceMismatch (expected : String) (got : List String)
  | expired (expiry : Int)
  | unsupportedAlgorithm (expected got : List String)
  | keyFetchError (msg : String)
  | noMatchingKey (ids : List String)
  | signatureVerificationFailed (errs : List String)
  | internalPayloadMismatch
  | nonceMismatch (got expected : String)
deriving DecidableEq

/-- Key-ID collection loop of `Verify`: walk `jws.Signatures`, keep the
`KeyID` of each signature whose algorithm is allowed (or all of them when
the allow-list is empty), and log the algorithm of each rejected signature
(`gotAlgsForErrLog`).  The Go code stores key IDs in a set (`map[string]
struct{}`); downstream only membership and emptiness are used, so a list
is an equivalent embedding. -/
def collectKeyIDs (algs : List String) : List SignatureHeader → List String × List String
  | [] => ([], [])
  | sig :: rest =>
    let acc := collectKeyIDs algs rest
    if algs.isEmpty || contains algs sig.Algorithm then
      (sig.KeyID :: acc.1, acc.2)
    else
      (acc.1, sig.Algorithm :: acc.2)

/-- Key filtering loop of `Verify`: keep the keys of the fetched set whose
`KeyID` is among the collected signature key IDs, preserving order. -/
def filterKeys (ids : List String) (allKeys : List JSONWebKey) : List JSONWebKey :=
  allKeys.filter (fun k => ids.contains k.KeyID)

/-- Signature-attempt loop of `Verify`: try `jws.Verify(&key)` on each
candidate key in order; an error is added to the aggregate (`xerr.Add`) and
the loop continues, the first success sets `gotPayload` and breaks.
Returns the payload obtained (`""`, i.e. empty bytes, when every key
failed) and the errors aggregated before the loop ended.  The aggregate of
the repository's `xerrors` helper package (not among the provided sources)
is modelled from the spec as the list of every added message. -/
def tryKeys (joseVerify : JSONWebKey → Except String String) :
    List JSONWebKey → String × List String
  | [] => ("", [])
  | key :: rest =>
    match joseVerify key with
    | .error e =>
      let acc := tryKeys joseVerify rest
      (acc.1, e :: acc.2)
    | .ok p => (p, [])

/-- Message held by a failed `jws.Verify` outcome (used to state what the
aggregate error retains). -/
def errOf : Except String String → String
  | .error e => e
  | .ok _ => ""

/-- Tail of `Verify` from the signature-algorithm screening on: collect key
IDs per allowed algorithms, fail `unsupportedAlgorithm` when none qualify
(before any key fetch), otherwise fetch keys (`keysResult`), intersect with
the collected IDs, try each candidate key, defensively compare the
verified payload with the parsed one, and finally check the nonce.  The
second component counts `keySet.Keys` invocations. -/
def verifySignaturePhase (v : IDTokenVerifier) (jws : JWS) (token : IDToken)
    (payload : String) (keysResult : Except String (List JSONWebKey))
    (joseVerify : JSONWebKey → Except String String) :
    Except VerifyError IDToken × Nat :=
  let kg := collectKeyIDs v.cfg.SupportedSigningAlgs jws.Signatures
  if kg.1 = [] then
    (.error (.unsupportedAlgorithm v.cfg.SupportedSigningAlgs kg.2), 0)
  else
    match keysResult with
    | .error e => (.error (.keyFetchError e), 1)
    | .ok allKeys =>
      let keys := filterKeys kg.1 allKeys
      if keys = [] then
        (.error (.noMatchingKey kg.1), 1)
      else
        let pe := tryKeys joseVerify keys
        if pe.1 = "" then
          (.error (.signatureVerificationFailed pe.2), 1)
        else if pe.1 ≠ payload then
          (.error .internalPayloadMismatch, 1)
        else if v.cfg.ClaimNonce ≠ "" ∧ token.Nonce ≠ v.cfg.ClaimNonce then
          (.error (.nonceMismatch token.Nonce v.cfg.ClaimNonce), 1)
        else
          (.ok token, 1)

/-- Verify of `verify.go`.  Checks, in source order: parse failures, issuer
(with the Google no-scheme carve-out), ClientID configured and audience
membership, expiry strictly before `now()`, then the signature phase.  The
`Nat` component counts how many times `keySet.Keys` was invoked. -/
def Verify (v : IDTokenVerifier) (pr : ParseResult)
    (keysResult : Except String (List JSONWebKey))
    (joseVerify : JSONWebKey → Except String String) :
    Except VerifyError IDToken × Nat :=
  match pr with
  | .fail msg => (.error (.malformedJWT msg), 0)
  | .ok jws token payload =>
    if token.Issuer ≠ v.issuer ∧
        ¬(v.issuer = issuerGoogleAccounts ∧
          token.Issuer = issuerGoogleAccountsNoScheme) then
      (.error (.issuerMismatch v.issuer token.Issuer), 0)
    else if v.cfg.ClientID = "" then
      (.error .configurationError, 0)
    else if contains token.Audience v.cfg.ClientID = false then
      (.error (.audienceMismatch v.cfg.ClientID token.Audience), 0)
    else if token.Expiry < v.cfg.Now then
      (.error (.expired token.Expiry), 0)
    else
      verifySignaturePhase v jws token payload keysResult joseVerify

/-- Classifier for errors that can arise in the signature phase (after the
expiry check); used to show the earlier checks' errors never arise there. -/
def signaturePhaseError : VerifyError → Bool
  | .unsupportedAlgorithm _ _ => true
  | .keyFetchError _ => true
  | .noMatchingKey _ => true
  | .signatureVerificationFailed _ => true
  | .internalPayloadMismatch => true
  | .nonceMismatch _ _ => true
  | _ => false

/-- Copy of a verifier with a different configured nonce; used to state that
a result does not depend on the configured nonce. -/
def withClaimNonce (v : IDTokenVerifier) (n : String) : IDTokenVerifier :=
  { v with cfg := { v.cfg with ClaimNonce := n } }

end Oidc

namespace Login

/-- Modelled from the spec: the Token triple of section 3 (the file defining
`oidc.Token` is not among the provided sources; its tests and the spec fix
the three opaque string fields). -/
structure Token where
  AccessToken : String
  RefreshToken : String
  IDToken : String
deriving DecidableEq

/-- Modelled from the spec: outcome classification of one ID-Token
verification as the token-source state machine of section 4.3 consumes it —
success, a nonce-mismatch failure, or any other verification failure. -/
inductive VerifyOutcome where
  | ok
  | nonceMismatch
  | otherFailure (msg : String)
deriving DecidableEq

/-- Modelled from the spec: the environment of one `OIDCToken` call
(`login/token_src.go` is not among the provided sources).  Each field is
one collaborator outcome of section 4.3: the cache lookup (`Cache.Token`,
where a missing token is `none` without error), verification of a cached
token's ID Token, the refresh_token exchange (`error` standing for a
non-success HTTP response), verification of the refreshed ID Token, the
interactive-login flow as a whole, and `Cache.SaveToken`. -/
structure TokenSourceEnv where
  cacheToken : Except String (Option Token)
  verifyCached : Token → VerifyOutcome
  refreshExchange : Except String Token
  verifyRefreshed : Token → VerifyOutcome
  interactiveLogin : Except String Token
  saveResult : Except String Unit

/-- Modelled from the spec: the states of the section 4.3 state machine. -/
inductive SMState where
  | CacheLookup
  | ValidCacheHit
  | SilentRefresh
  | InteractiveLogin
  | Persist
  | Done
deriving DecidableEq

/-- Result of one `OIDCToken` run: the returned value, the list of
arguments passed to `Cache.SaveToken` (in call order), and the list of
machine states entered (in order). -/
structure RunResult where
  result : Except String Token
  saves : List Token
  states : List SMState

/-- Record that a state was entered before the rest of a run. -/
def withState (s : SMState) (r : RunResult) : RunResult :=
  { r with states := s :: r.states }

/-- Modelled from the spec: the Persist state of section 4.3 — call
`Cache.SaveToken` once with the new token; a save failure is returned
(fail-closed), otherwise the token is returned. -/
def persist (env : TokenSourceEnv) (t : Token) : RunResult :=
  match env.saveResult with
  | .error e => ⟨.error e, [t], [.Persist]⟩
  | .ok _ => ⟨.ok t, [t], [.Persist, .Done]⟩

/-- Modelled from the spec: the InteractiveLogin state of section 4.3 — the
browser-mediated flow yields a fresh token (then Persist) or a terminal
error (no save). -/
def runInteractive (env : TokenSourceEnv) : RunResult :=
  match env.interactiveLogin with
  | .error e => ⟨.error e, [], [.InteractiveLogin]⟩
  | .ok t => withState .InteractiveLogin (persist env t)

/-- Modelled from the spec: the SilentRefresh state of section 4.3 —
exchange the cached refresh token; on a non-success HTTP response, or if
the resulting ID Token fails verification, fall through to
InteractiveLogin; on a verified success proceed to Persist. -/
def runSilentRefresh (env : TokenSourceEnv) : RunResult :=
  match env.refreshExchange with
  | .error _ => withState .SilentRefresh (runInteractive env)
  | .ok t =>
    match env.verifyRefreshed t with
    | .ok => withState .SilentRefresh (persist env t)
    | .nonceMismatch => withState .SilentRefresh (runInteractive env)
    | .otherFailure _ => withState .SilentRefresh (runInteractive env)

/-- Modelled from the spec: `OIDCToken` of section 4.3.  Cache lookup error
or absence routes to InteractiveLogin; a cached token is verified — success
returns it unchanged with no save, a nonce mismatch enters SilentRefresh,
and any other verification failure routes directly to InteractiveLogin. -/
def OIDCToken (env : TokenSourceEnv) : RunResult :=
  withState .CacheLookup
    (match env.cacheToken with
     | .error _ => runInteractive env
     | .ok none => runInteractive env
     | .ok (some t) =>
       match env.verifyCached t with
       | .ok => ⟨.ok t, [], [.ValidCacheHit, .Done]⟩
       | .nonceMismatch => runSilentRefresh env
       | .otherFailure _ => runInteractive env)

/-- A run took the pure cache-hit-valid path: the cache produced a token
whose ID Token verified. -/
def cacheHitValid (env : TokenSourceEnv) : Prop :=
  ∃ t, env.cacheToken = .ok (some t) ∧ env.verifyCached t = .ok

/-- Modelled from the spec: the scrub-ID-Token operation
(`clearIDToken` of `login/token_src.go`, not among the provided sources) —
given the token read from the cache, blank only its IDToken field and
re-save it.  Returns the token that was saved and the list of arguments
passed to `Cache.SaveToken`. -/
def clearIDToken (cached : Token) : Token × List Token :=
  let scrubbed : Token := { cached with IDToken := "" }
  (scrubbed, [scrubbed])

end Login

namespace Oidc

/-- When the allow-list is non-empty and every signature's algorithm is
rejected by it, the key-ID collection keeps nothing and logs every
algorithm in signature order. -/
theorem collectKeyIDs_all_unsupported (algs : List String) (hne : algs ≠ [])
    (sigs : List SignatureHeader)
    (hAll : ∀ sig ∈ sigs, contains algs sig.Algorithm = false) :
    collectKeyIDs algs sigs = ([], sigs.map SignatureHeader.Algorithm) := by
  have hie : algs.isEmpty = false := by
    cases algs with
    | nil => exact absurd rfl hne
    | cons a as => rfl
  induction sigs with
  | nil => rfl
  | cons sig rest ih =>
    have hsig : contains algs sig.Algorithm = false := hAll sig (by simp)
    have hrest : ∀ s ∈ rest, contains algs s.Algorithm = false :=
      fun s hs => hAll s (by simp [hs])
    simp [collectKeyIDs, hie, hsig, ih hrest]

/-- When every candidate key fails, the signature loop yields the empty
payload and aggregates every per-key error message in order. -/
theorem tryKeys_all_fail (jv : JSONWebKey → Except String String)
    (keys : List JSONWebKey) (hAll : ∀ k ∈ keys, ∃ e, jv k = .error e) :
    tryKeys jv keys = ("", keys.map (fun k => errOf (jv k))) := by
  induction keys with
  | nil => rfl
  | cons k rest ih =>
    obtain ⟨e, he⟩ := hAll k (by simp)
    have hrest : ∀ k₁ ∈ rest, ∃ e₁, jv k₁ = .error e₁ :=
      fun k₁ hk₁ => hAll k₁ (by simp [hk₁])
    simp [tryKeys, he, ih hrest, errOf]

/-- The first key that verifies ends the signature loop: its payload is
returned and only the errors of the keys tried before it are aggregated. -/
theorem tryKeys_first_success (jv : JSONWebKey → Except String String)
    (ks₁ : List JSONWebKey) (k : JSONWebKey) (ks₂ : List JSONWebKey) (p : String)
    (hfail : ∀ k₁ ∈ ks₁, ∃ e, jv k₁ = .error e) (hk : jv k = .ok p) :
    tryKeys jv (ks₁ ++ k :: ks₂) = (p, ks₁.map (fun k₁ => errOf (jv k₁))) := by
  induction ks₁ with
  | nil => simp [tryKeys, hk]
  | cons a rest ih =>
    obtain ⟨e, he⟩ := hfail a (by simp)
    have hrest : ∀ k₁ ∈ rest, ∃ e₁, jv k₁ = .error e₁ :=
      fun k₁ hk₁ => hfail k₁ (by simp [hk₁])
    simp [tryKeys, he, ih hrest, errOf]

/-- Every outcome of the signature phase is either acceptance of the parsed
token or an error of the signature-phase kinds; the earlier structural,
issuer, audience and expiry errors never arise there. -/
theorem verifySignaturePhase_shape (v : IDTokenVerifier) (jws : JWS)
    (token : IDToken) (payload : String)
    (kr : Except String (List JSONWebKey))
    (jv : JSONWebKey → Except String String) :
    (verifySignaturePhase v jws token payload kr jv).1 = .ok token ∨
    ∃ e, (verifySignaturePhase v jws token payload kr jv).1 = .error e ∧
      signaturePhaseError e = true := by
  unfold verifySignaturePhase
  dsimp only
  repeat' split
  all_goals
    first
    | exact Or.inl rfl
    | exact Or.inr ⟨_, rfl, rfl⟩

/-- When the issuer, ClientID, audience and expiry checks pass, `Verify` is
the signature phase. -/
theorem Verify_reaches_signaturePhase (v : IDTokenVerifier) (jws : JWS)
    (token : IDToken) (payload : String)
    (kr : Except String (List JSONWebKey))
    (jv : JSONWebKey → Except String String)
    (hIss : token.Issuer = v.issuer ∨
      (v.issuer = issuerGoogleAccounts ∧
       token.Issuer = issuerGoogleAccountsNoScheme))
    (hCid : v.cfg.ClientID ≠ "")
    (hAud : contains token.Audience v.cfg.ClientID = true)
    (hExp : ¬ token.Expiry < v.cfg.Now) :
    Verify v (.ok jws token payload) kr jv =
      verifySignaturePhase v jws token payload kr jv := by
  have h₁ : ¬(token.Issuer ≠ v.issuer ∧
      ¬(v.issuer = issuerGoogleAccounts ∧
        token.Issuer = issuerGoogleAccountsNoScheme)) := by
    rcases hIss with h | h
    · exact fun hc => hc.1 h
    · exact fun hc => hc.2 h
  simp only [Verify]
  rw [if_neg h₁, if_neg hCid,
    if_neg (show ¬ contains token.Audience v.cfg.ClientID = false by simp [hAud]),
    if_neg hExp]

/-- Once the issuer check has passed, no later stage of `Verify` can
produce an issuer-mismatch error. -/
theorem Verify_issuer_passed_no_issuer_error (v : IDTokenVerifier) (jws : JWS)
    (token : IDToken) (payload : String)
    (kr : Except String (List JSONWebKey))
    (jv : JSONWebKey → Except String String)
    (hIss : token.Issuer = v.issuer ∨
      (v.issuer = issuerGoogleAccounts ∧
       token.Issuer = issuerGoogleAccountsNoScheme)) :
    ∀ exp got, (Verify v (.ok jws token payload) kr jv).1 ≠
      .error (.issuerMismatch exp got) := by
  intro exp got h
  have h₁ : ¬(token.Issuer ≠ v.issuer ∧
      ¬(v.issuer = issuerGoogleAccounts ∧
        token.Issuer = issuerGoogleAccountsNoScheme)) := by
    rcases hIss with h' | h'
    · exact fun hc => hc.1 h'
    · exact fun hc => hc.2 h'
  simp only [Verify] at h
  rw [if_neg h₁] at h
  by_cases hCid : v.cfg.ClientID = ""
  · rw [if_pos hCid] at h
    simp at h
  · rw [if_neg hCid] at h
    by_cases hAud : contains token.Audience v.cfg.ClientID = false
    · rw [if_pos hAud] at h
      simp at h
    · rw [if_neg hAud] at h
      by_cases hExp : token.Expiry < v.cfg.Now
      · rw [if_pos hExp] at h
        simp at h
      · rw [if_neg hExp] at h
        rcases verifySignaturePhase_shape v jws token payload kr jv with hs | ⟨e, he, hpe⟩
        · rw [h] at hs
          simp at hs
        · rw [h] at he
          injection he with he₂
          subst he₂
          simp [signaturePhaseError] at hpe

/-- Once the audience check has passed, no later stage of `Verify` can
produce an audience-mismatch error. -/
theorem Verify_audience_passed_no_audience_error (v : IDTokenVerifier)
    (jws : JWS) (token : IDToken) (payload : String)
    (kr : Except String (List JSONWebKey))
    (jv : JSONWebKey → Except String String)
    (hAud : contains token.Audience v.cfg.ClientID = true) :
    ∀ cid aud, (Verify v (.ok jws token payload) kr jv).1 ≠
      .error (.audienceMismatch cid aud) := by
  intro cid aud h
  simp only [Verify] at h
  by_cases h₁ : token.Issuer ≠ v.issuer ∧
      ¬(v.issuer = issuerGoogleAccounts ∧
        token.Issuer = issuerGoogleAccountsNoScheme)
  · rw [if_pos h₁] at h
    simp at h
  · rw [if_neg h₁] at h
    by_cases hCid : v.cfg.ClientID = ""
    · rw [if_pos hCid] at h
      simp at h
    · rw [if_neg hCid] at h
      rw [if_neg (show ¬ contains token.Audience v.cfg.ClientID = false by simp [hAud])] at h
      by_cases hExp : token.Expiry < v.cfg.Now
      · rw [if_pos hExp] at h
        simp at h
      · rw [if_neg hExp] at h
        rcases verifySignaturePhase_shape v jws token payload kr jv with hs | ⟨e, he, hpe⟩
        · rw [h] at hs
          simp at hs
        · rw [h] at he
          injection he with he₂
          subst he₂
          simp [signaturePhaseError] at hpe

/-- Sample verifier with an empty configured nonce (counterexample input
for the expiry boundary). -/
def exVerifier : IDTokenVerifier :=
  { cfg := { ClientID := "client1", ClaimNonce := "",
             SupportedSigningAlgs := ["RS256"], Now := 100 },
    issuer := "https://issuer.example" }

/-- Sample token whose Expiry equals the configured clock instant. -/
def exToken : IDToken :=
  { Issuer := "https://issuer.example", Subject := "sub1",
    Audience := ["client1"], Expiry := 100, Nonce := "" }

/-- Sample JWS envelope with one RS256 signature by key `k1`. -/
def exJWS : JWS := { Signatures := [{ Algorithm := "RS256", KeyID := "k1" }] }

/-- Sample web key `k1`. -/
def exKey : JSONWebKey := { KeyID := "k1" }

/-- C2 counterexample: a token whose Expiry exactly equals the configured
clock `Now()` is accepted rather than rejected as expired, because the
source only rejects when `token.Expiry.Time().Before(now())`, a strict
comparison; the claim that expiry equal to `Now()` is rejected is false. -/
theorem Verify_expiry_equal_now_accepted :
    exToken.Expiry = exVerifier.cfg.Now ∧
    (Verify exVerifier (.ok exJWS exToken "payload1") (.ok [exKey])
      (fun _ => .ok "payload1")).1 = .ok exToken :=
  ⟨rfl, rfl⟩

/-- C2 (amended): for a raw ID Token whose structural, issuer and audience
checks pass, `Verify` fails with the expiry error exactly when the token
Expiry is strictly before the configured clock `Now()`; a token whose
Expiry equals `Now()` passes the expiry check. -/
theorem Verify_expired_iff_strictly_before (v : IDTokenVerifier) (jws : JWS)
    (token : IDToken) (payload : String)
    (kr : Except String (List JSONWebKey))
    (jv : JSONWebKey → Except String String)
    (hIss : token.Issuer = v.issuer ∨
      (v.issuer = issuerGoogleAccounts ∧
       token.Issuer = issuerGoogleAccountsNoScheme))
    (hCid : v.cfg.ClientID ≠ "")
    (hAud : contains token.Audience v.cfg.ClientID = true) :
    Verify v (.ok jws token payload) kr jv = (.error (.expired token.Expiry), 0)
      ↔ token.Expiry < v.cfg.Now := by
  have h₁ : ¬(token.Issuer ≠ v.issuer ∧
      ¬(v.issuer = issuerGoogleAccounts ∧
        token.Issuer = issuerGoogleAccountsNoScheme)) := by
    rcases hIss with h' | h'
    · exact fun hc => hc.1 h'
    · exact fun hc => hc.2 h'
  constructor
  · intro h
    by_contra hExp
    rw [Verify_reaches_signaturePhase v jws token payload kr jv hIss hCid hAud hExp] at h
    have h' : (verifySignaturePhase v jws token payload kr jv).1 =
        .error (.expired token.Expiry) := by rw [h]
    rcases verifySignaturePhase_shape v jws token payload kr jv with hs | ⟨e, he, hpe⟩
    · rw [h'] at hs
      simp at hs
    · rw [h'] at he
      injection he with he₂
      subst he₂
      simp [signaturePhaseError] at hpe
  · intro hlt
    simp only [Verify]
    rw [if_neg h₁, if_neg hCid,
      if_neg (show ¬ contains token.Audience v.cfg.ClientID = false by simp [hAud]),
      if_pos hlt]

/-- Witness for the amended C2 theorem at a concrete expired token. -/
theorem Verify_expired_iff_strictly_before_witness :
    Verify exVerifier
      (.ok exJWS
        { Issuer := "https://issuer.example", Subject := "sub1",
          Audience := ["client1"], Expiry := 50, Nonce := "" }
        "payload1")
      (.ok [exKey]) (fun _ => .ok "payload1") =
      (.error (.expired 50), 0) :=
  (Verify_expired_iff_strictly_before exVerifier exJWS
    { Issuer := "https://issuer.example", Subject := "sub1",
      Audience := ["client1"], Expiry := 50, Nonce := "" }
    "payload1" (.ok [exKey]) (fun _ => .ok "payload1")
    (Or.inl rfl) (by decide) (by decide)).mpr (by decide)

/-- C3: when every signature of the token carries an algorithm outside the
configured (non-empty) allow-list, `Verify` fails with the
UnsupportedAlgorithm error listing the rejected algorithms, and the key-set
fetch counter is 0 — `keySet.Keys` is never invoked, for any key-fetch
outcome `kr`. -/
theorem Verify_unsupported_algs_no_key_fetch (v : IDTokenVerifier) (jws : JWS)
    (token : IDToken) (payload : String)
    (kr : Except String (List JSONWebKey))
    (jv : JSONWebKey → Except String String)
    (hIss : token.Issuer = v.issuer ∨
      (v.issuer = issuerGoogleAccounts ∧
       token.Issuer = issuerGoogleAccountsNoScheme))
    (hCid : v.cfg.ClientID ≠ "")
    (hAud : contains token.Audience v.cfg.ClientID = true)
    (hExp : ¬ token.Expiry < v.cfg.Now)
    (hne : v.cfg.SupportedSigningAlgs ≠ [])
    (hAll : ∀ sig ∈ jws.Signatures,
      contains v.cfg.SupportedSigningAlgs sig.Algorithm = false) :
    Verify v (.ok jws token payload) kr jv =
      (.error (.unsupportedAlgorithm v.cfg.SupportedSigningAlgs
        (jws.Signatures.map SignatureHeader.Algorithm)), 0) := by
  rw [Verify_reaches_signaturePhase v jws token payload kr jv hIss hCid hAud hExp]
  have hc := collectKeyIDs_all_unsupported v.cfg.SupportedSigningAlgs hne
    jws.Signatures hAll
  simp [verifySignaturePhase, hc]

/-- Sample JWS whose only signature uses the HS256 algorithm. -/
def exJWSBadAlg : JWS :=
  { Signatures := [{ Algorithm := "HS256", KeyID := "k1" }] }

/-- Witness for C3: the HS256-only token is rejected before any key fetch,
even though fetching would have failed. -/
theorem Verify_unsupported_algs_no_key_fetch_witness :
    Verify exVerifier (.ok exJWSBadAlg exToken "payload1")
      (.error "not fetched") (fun _ => .error "never used") =
      (.error (.unsupportedAlgorithm ["RS256"] ["HS256"]), 0) :=
  Verify_unsupported_algs_no_key_fetch exVerifier exJWSBadAlg exToken "payload1"
    (.error "not fetched") (fun _ => .error "never used")
    (Or.inl rfl) (by decide) (by decide) (by decide) (by decide) (by decide)

/-- C4: once the structural and issuer checks pass, an absent ClientID
fails with the configuration error (the audience check is never silently
skipped); with a ClientID configured, an audience list not containing it
fails with the audience error; and once the audience check passes no later
stage can produce an audience error. -/
theorem Verify_clientID_and_audience_check (v : IDTokenVerifier) (jws : JWS)
    (token : IDToken) (payload : String)
    (kr : Except String (List JSONWebKey))
    (jv : JSONWebKey → Except String String)
    (hIss : token.Issuer = v.issuer ∨
      (v.issuer = issuerGoogleAccounts ∧
       token.Issuer = issuerGoogleAccountsNoScheme)) :
    (v.cfg.ClientID = "" →
      Verify v (.ok jws token payload) kr jv = (.error .configurationError, 0)) ∧
    (v.cfg.ClientID ≠ "" → contains token.Audience v.cfg.ClientID = false →
      Verify v (.ok jws token payload) kr jv =
        (.error (.audienceMismatch v.cfg.ClientID token.Audience), 0)) ∧
    (contains token.Audience v.cfg.ClientID = true →
      ∀ cid aud, (Verify v (.ok jws token payload) kr jv).1 ≠
        .error (.audienceMismatch cid aud)) := by
  have h₁ : ¬(token.Issuer ≠ v.issuer ∧
      ¬(v.issuer = issuerGoogleAccounts ∧
        token.Issuer = issuerGoogleAccountsNoScheme)) := by
    rcases hIss with h' | h'
    · exact fun hc => hc.1 h'
    · exact fun hc => hc.2 h'
  refine ⟨?_, ?_, ?_⟩
  · intro hCid
    simp only [Verify]
    rw [if_neg h₁, if_pos hCid]
  · intro hCid hAudF
    simp only [Verify]
    rw [if_neg h₁, if_neg hCid, if_pos hAudF]
  · intro hAud cid aud
    exact Verify_audience_passed_no_audience_error v jws token payload kr jv hAud cid aud

/-- Sample verifier with no configured ClientID. -/
def exVerifierNoCid : IDTokenVerifier :=
  { cfg := { ClientID := "", ClaimNonce := "",
             SupportedSigningAlgs := ["RS256"], Now := 100 },
    issuer := "https://issuer.example" }

/-- Sample token whose audience does not contain `client1`. -/
def exTokenWrongAud : IDToken :=
  { Issuer := "https://issuer.example", Subject := "sub1",
    Audience := ["other"], Expiry := 200, Nonce := "" }

/-- Witness for C4: a missing ClientID yields the configuration error, and
an audience without the configured ClientID yields the audience error. -/
theorem Verify_clientID_and_audience_check_witness :
    Verify exVerifierNoCid (.ok exJWS exToken "payload1") (.ok [exKey])
        (fun _ => .ok "payload1") = (.error .configurationError, 0) ∧
    Verify exVerifier (.ok exJWS exTokenWrongAud "payload1") (.ok [exKey])
        (fun _ => .ok "payload1") =
      (.error (.audienceMismatch "client1" ["other"]), 0) :=
  ⟨(Verify_clientID_and_audience_check exVerifierNoCid exJWS exToken "payload1"
      (.ok [exKey]) (fun _ => .ok "payload1") (Or.inl rfl)).1 rfl,
   (Verify_clientID_and_audience_check exVerifier exJWS exTokenWrongAud "payload1"
      (.ok [exKey]) (fun _ => .ok "payload1") (Or.inl rfl)).2.1
     (by decide) (by decide)⟩

/-- C9: for a token whose parsed issuer differs from the configured issuer,
`Verify` fails with the issuer-mismatch error exactly when the pair is not
the documented Google carve-out (configured issuer
`https://accounts.google.com`, token issuer `accounts.google.com`); under
the carve-out, and only then, the deviating issuer is accepted. -/
theorem Verify_issuer_mismatch_google_carveout (v : IDTokenVerifier)
    (jws : JWS) (token : IDToken) (payload : String)
    (kr : Except String (List JSONWebKey))
    (jv : JSONWebKey → Except String String)
    (hneq : token.Issuer ≠ v.issuer) :
    Verify v (.ok jws token payload) kr jv =
        (.error (.issuerMismatch v.issuer token.Issuer), 0) ↔
      ¬(v.issuer = issuerGoogleAccounts ∧
        token.Issuer = issuerGoogleAccountsNoScheme) := by
  constructor
  · intro h hc
    exact Verify_issuer_passed_no_issuer_error v jws token payload kr jv
      (Or.inr hc) v.issuer token.Issuer (by rw [h])
  · intro hc
    simp only [Verify]
    rw [if_pos ⟨hneq, hc⟩]

/-- Witness for C9: a non-Google issuer deviation is rejected with the
issuer-mismatch error; the exact Google no-scheme pair is not rejected with
that error. -/
theorem Verify_issuer_mismatch_google_carveout_witness :
    Verify exVerifier
        (.ok exJWS
          { Issuer := "https://evil.example", Subject := "sub1",
            Audience := ["client1"], Expiry := 200, Nonce := "" }
          "payload1")
        (.ok [exKey]) (fun _ => .ok "payload1") =
      (.error (.issuerMismatch "https://issuer.example" "https://evil.example"), 0) ∧
    ¬(Verify { cfg := exVerifier.cfg, issuer := "https://accounts.google.com" }
        (.ok exJWS
          { Issuer := "accounts.google.com", Subject := "sub1",
            Audience := ["client1"], Expiry := 200, Nonce := "" }
          "payload1")
        (.ok [exKey]) (fun _ => .ok "payload1") =
      (.error (.issuerMismatch "https://accounts.google.com" "accounts.google.com"), 0)) :=
  ⟨(Verify_issuer_mismatch_google_carveout exVerifier exJWS
      { Issuer := "https://evil.example", Subject := "sub1",
        Audience := ["client1"], Expiry := 200, Nonce := "" }
      "payload1" (.ok [exKey]) (fun _ => .ok "payload1") (by decide)).mpr (by decide),
   fun h =>
    (Verify_issuer_mismatch_google_carveout
      { cfg := exVerifier.cfg, issuer := "https://accounts.google.com" } exJWS
      { Issuer := "accounts.google.com", Subject := "sub1",
        Audience := ["client1"], Expiry := 200, Nonce := "" }
      "payload1" (.ok [exKey]) (fun _ => .ok "payload1") (by decide)).mp h
      ⟨rfl, rfl⟩⟩

/-- C5: with a configured (non-empty) nonce, when every earlier check and
the signature verification succeed, a nonce claim differing from the
configured one (exact string comparison) fails with the nonce-mismatch
error; and when signature verification fails, the result is the
signature-failure error whatever nonce is configured — no nonce comparison
influences the outcome before authenticity is established. -/
theorem Verify_nonce_exact_and_last (v : IDTokenVerifier) (jws : JWS)
    (token : IDToken) (payload : String) (allKeys : List JSONWebKey)
    (jv : JSONWebKey → Except String String)
    (hIss : token.Issuer = v.issuer ∨
      (v.issuer = issuerGoogleAccounts ∧
       token.Issuer = issuerGoogleAccountsNoScheme))
    (hCid : v.cfg.ClientID ≠ "")
    (hAud : contains token.Audience v.cfg.ClientID = true)
    (hExp : ¬ token.Expiry < v.cfg.Now)
    (hids : (collectKeyIDs v.cfg.SupportedSigningAlgs jws.Signatures).1 ≠ [])
    (hkeysne : filterKeys (collectKeyIDs v.cfg.SupportedSigningAlgs
      jws.Signatures).1 allKeys ≠ []) :
    ((tryKeys jv (filterKeys (collectKeyIDs v.cfg.SupportedSigningAlgs
        jws.Signatures).1 allKeys)).1 = payload → payload ≠ "" →
      v.cfg.ClaimNonce ≠ "" → token.Nonce ≠ v.cfg.ClaimNonce →
      Verify v (.ok jws token payload) (.ok allKeys) jv =
        (.error (.nonceMismatch token.Nonce v.cfg.ClaimNonce), 1)) ∧
    ((tryKeys jv (filterKeys (collectKeyIDs v.cfg.SupportedSigningAlgs
        jws.Signatures).1 allKeys)).1 = "" →
      ∀ n, Verify (withClaimNonce v n) (.ok jws token payload) (.ok allKeys) jv =
        (.error (.signatureVerificationFailed
          (tryKeys jv (filterKeys (collectKeyIDs v.cfg.SupportedSigningAlgs
            jws.Signatures).1 allKeys)).2), 1)) := by
  constructor
  · intro htk hpne hcn hnn
    rw [Verify_reaches_signaturePhase v jws token payload (.ok allKeys) jv
      hIss hCid hAud hExp]
    simp [verifySignaturePhase, hids, hkeysne, htk, hpne, hcn, hnn]
  · intro htk n
    rw [Verify_reaches_signaturePhase (withClaimNonce v n) jws token payload
      (.ok allKeys) jv hIss hCid hAud hExp]
    simp [verifySignaturePhase, withClaimNonce, hids, hkeysne, htk]

/-- Sample verifier with the nonce `nonce1` configured. -/
def exVerifierNonce : IDTokenVerifier :=
  { cfg := { ClientID := "client1", ClaimNonce := "nonce1",
             SupportedSigningAlgs := ["RS256"], Now := 100 },
    issuer := "https://issuer.example" }

/-- Sample token carrying the nonce claim `wrong`. -/
def exTokenWrongNonce : IDToken :=
  { Issuer := "https://issuer.example", Subject := "sub1",
    Audience := ["client1"], Expiry := 200, Nonce := "wrong" }

/-- Witness for C5: a verified token with nonce `wrong` against configured
nonce `nonce1` fails with the nonce-mismatch error. -/
theorem Verify_nonce_exact_and_last_witness :
    Verify exVerifierNonce (.ok exJWS exTokenWrongNonce "payload1")
        (.ok [exKey]) (fun _ => .ok "payload1") =
      (.error (.nonceMismatch "wrong" "nonce1"), 1) :=
  (Verify_nonce_exact_and_last exVerifierNonce exJWS exTokenWrongNonce
    "payload1" [exKey] (fun _ => .ok "payload1")
    (Or.inl rfl) (by decide) (by decide) (by decide) (by decide) (by decide)).1
    (by decide) (by decide) (by decide) (by decide)

/-- C6: when every candidate key fails to verify the signature, `Verify`
fails with an aggregate error that retains one message per attempted key —
never only the last one; and the signature loop stops at the first key that
verifies, returning its payload and aggregating only the errors of the
keys tried before it. -/
theorem Verify_signature_failure_aggregates_all (v : IDTokenVerifier)
    (jws : JWS) (token : IDToken) (payload : String)
    (allKeys : List JSONWebKey) (jv : JSONWebKey → Except String String)
    (hIss : token.Issuer = v.issuer ∨
      (v.issuer = issuerGoogleAccounts ∧
       token.Issuer = issuerGoogleAccountsNoScheme))
    (hCid : v.cfg.ClientID ≠ "")
    (hAud : contains token.Audience v.cfg.ClientID = true)
    (hExp : ¬ token.Expiry < v.cfg.Now)
    (hids : (collectKeyIDs v.cfg.SupportedSigningAlgs jws.Signatures).1 ≠ [])
    (hkeysne : filterKeys (collectKeyIDs v.cfg.SupportedSigningAlgs
      jws.Signatures).1 allKeys ≠ []) :
    ((∀ k ∈ filterKeys (collectKeyIDs v.cfg.SupportedSigningAlgs
        jws.Signatures).1 allKeys, ∃ e, jv k = .error e) →
      Verify v (.ok jws token payload) (.ok allKeys) jv =
        (.error (.signatureVerificationFailed
          ((filterKeys (collectKeyIDs v.cfg.SupportedSigningAlgs
            jws.Signatures).1 allKeys).map (fun k => errOf (jv k)))), 1)) ∧
    (∀ (ks₁ ks₂ : List JSONWebKey) (k : JSONWebKey) (p : String),
      (∀ k₁ ∈ ks₁, ∃ e, jv k₁ = .error e) → jv k = .ok p →
      tryKeys jv (ks₁ ++ k :: ks₂) =
        (p, ks₁.map (fun k₁ => errOf (jv k₁)))) := by
  constructor
  · intro hall
    have htk := tryKeys_all_fail jv _ hall
    rw [Verify_reaches_signaturePhase v jws token payload (.ok allKeys) jv
      hIss hCid hAud hExp]
    simp [verifySignaturePhase, hids, hkeysne, htk]
  · intro ks₁ ks₂ k p hfail hk
    exact tryKeys_first_success jv ks₁ k ks₂ p hfail hk

/-- Sample JWS with two RS256 signatures by keys `k1` and `k2`. -/
def exJWS2 : JWS :=
  { Signatures := [{ Algorithm := "RS256", KeyID := "k1" },
                   { Algorithm := "RS256", KeyID := "k2" }] }

/-- Second sample key `k2`. -/
def exKey2 : JSONWebKey := { KeyID := "k2" }

/-- Witness for C6: with two candidate keys both failing, the aggregate
error retains both per-key messages. -/
theorem Verify_signature_failure_aggregates_all_witness :
    Verify exVerifier (.ok exJWS2 exToken "payload1") (.ok [exKey, exKey2])
        (fun k => .error ("bad " ++ k.KeyID)) =
      (.error (.signatureVerificationFailed ["bad k1", "bad k2"]), 1) :=
  (Verify_signature_failure_aggregates_all exVerifier exJWS2 exToken
    "payload1" [exKey, exKey2] (fun k => .error ("bad " ++ k.KeyID))
    (Or.inl rfl) (by decide) (by decide) (by decide) (by decide) (by decide)).1
    (fun k _ => ⟨"bad " ++ k.KeyID, rfl⟩)

/-- C10: with an empty configured ClaimNonce, a token that passes the
structural, issuer, audience, expiry and signature checks is accepted
whatever its nonce claim holds — no nonce comparison takes place. -/
theorem Verify_empty_nonce_no_check (v : IDTokenVerifier) (jws : JWS)
    (token : IDToken) (payload : String) (allKeys : List JSONWebKey)
    (jv : JSONWebKey → Except String String)
    (hNonce : v.cfg.ClaimNonce = "")
    (hIss : token.Issuer = v.issuer ∨
      (v.issuer = issuerGoogleAccounts ∧
       token.Issuer = issuerGoogleAccountsNoScheme))
    (hCid : v.cfg.ClientID ≠ "")
    (hAud : contains token.Audience v.cfg.ClientID = true)
    (hExp : ¬ token.Expiry < v.cfg.Now)
    (hids : (collectKeyIDs v.cfg.SupportedSigningAlgs jws.Signatures).1 ≠ [])
    (hkeysne : filterKeys (collectKeyIDs v.cfg.SupportedSigningAlgs
      jws.Signatures).1 allKeys ≠ [])
    (htk : (tryKeys jv (filterKeys (collectKeyIDs v.cfg.SupportedSigningAlgs
      jws.Signatures).1 allKeys)).1 = payload)
    (hpne : payload ≠ "") :
    Verify v (.ok jws token payload) (.ok allKeys) jv = (.ok token, 1) := by
  rw [Verify_reaches_signaturePhase v jws token payload (.ok allKeys) jv
    hIss hCid hAud hExp]
  simp [verifySignaturePhase, hids, hkeysne, htk, hpne, hNonce]

/-- Sample token carrying an arbitrary nonce claim. -/
def exTokenOddNonce : IDToken :=
  { Issuer := "https://issuer.example", Subject := "sub1",
    Audience := ["client1"], Expiry := 200, Nonce := "unexpected" }

/-- Witness for C10: the empty configured nonce accepts a verified token
carrying the nonce claim `unexpected`. -/
theorem Verify_empty_nonce_no_check_witness :
    Verify exVerifier (.ok exJWS exTokenOddNonce "payload1") (.ok [exKey])
        (fun _ => .ok "payload1") = (.ok exTokenOddNonce, 1) :=
  Verify_empty_nonce_no_check exVerifier exJWS exTokenOddNonce "payload1"
    [exKey] (fun _ => .ok "payload1") rfl (Or.inl rfl)
    (by decide) (by decide) (by decide) (by decide) (by decide) (by decide)
    (by decide)

end Oidc

namespace Login

/-- A successful Persist saved exactly the token it was given and returned
it. -/
theorem persist_result_ok (env : TokenSourceEnv) (t u : Token)
    (h : (persist env t).result = .ok u) :
    u = t ∧ (persist env t).saves = [t] := by
  cases hs : env.saveResult with
  | error e => simp [persist, hs] at h
  | ok w =>
    simp [persist, hs] at h
    exact ⟨h.symm, by simp [persist, hs]⟩

/-- A successful InteractiveLogin path returned the token of the
interactive flow and saved exactly it. -/
theorem runInteractive_result_ok (env : TokenSourceEnv) (u : Token)
    (h : (runInteractive env).result = .ok u) :
    env.interactiveLogin = .ok u ∧ (runInteractive env).saves = [u] := by
  cases hi : env.interactiveLogin with
  | error e => simp [runInteractive, hi] at h
  | ok t =>
    have h' : (persist env t).result = .ok u := by
      simpa [runInteractive, hi, withState] using h
    obtain ⟨hu, hsv⟩ := persist_result_ok env t u h'
    subst hu
    exact ⟨rfl, by simp [runInteractive, hi, withState, hsv]⟩

/-- The InteractiveLogin path never enters the SilentRefresh state. -/
theorem silentRefresh_not_in_runInteractive (env : TokenSourceEnv) :
    SMState.SilentRefresh ∉ (runInteractive env).states := by
  cases hi : env.interactiveLogin with
  | error e => simp [runInteractive, hi]
  | ok t =>
    cases hs : env.saveResult with
    | error e => simp [runInteractive, hi, withState, persist, hs]
    | ok w => simp [runInteractive, hi, withState, persist, hs]

/-- The SilentRefresh path always enters the SilentRefresh state. -/
theorem silentRefresh_in_runSilentRefresh (env : TokenSourceEnv) :
    SMState.SilentRefresh ∈ (runSilentRefresh env).states := by
  cases hr : env.refreshExchange with
  | error e => simp [runSilentRefresh, hr, withState]
  | ok t =>
    cases hvr : env.verifyRefreshed t <;>
      simp [runSilentRefresh, hr, hvr, withState]

/-- C1: every successful `OIDCToken` call returns a token with non-empty
AccessToken and IDToken (given that the collaborators only yield such
tokens on their success paths); on the pure cache-hit-valid path — the
cache produced a token whose ID Token verified — the cached token is
returned unchanged and `Cache.SaveToken` is never invoked; on every other
successful path `Cache.SaveToken` was invoked exactly once, with exactly
the returned token. -/
theorem OIDCToken_save_invariant (env : TokenSourceEnv)
    (hC : ∀ t, env.cacheToken = .ok (some t) → env.verifyCached t = .ok →
      t.AccessToken ≠ "" ∧ t.IDToken ≠ "")
    (hR : ∀ t, env.refreshExchange = .ok t → env.verifyRefreshed t = .ok →
      t.AccessToken ≠ "" ∧ t.IDToken ≠ "")
    (hI : ∀ t, env.interactiveLogin = .ok t →
      t.AccessToken ≠ "" ∧ t.IDToken ≠ "")
    (t : Token) (hres : (OIDCToken env).result = .ok t) :
    (t.AccessToken ≠ "" ∧ t.IDToken ≠ "") ∧
    (∀ ct, env.cacheToken = .ok (some ct) → env.verifyCached ct = .ok →
      t = ct ∧ (OIDCToken env).saves = []) ∧
    (¬ cacheHitValid env → (OIDCToken env).saves = [t]) := by
  cases hct : env.cacheToken with
  | error e =>
    obtain ⟨hil, hsv⟩ := runInteractive_result_ok env t
      (by simpa [OIDCToken, hct, withState] using hres)
    refine ⟨hI t hil, ?_, fun _ => ?_⟩
    · intro ct h
      simp at h
    · simp [OIDCToken, hct, withState, hsv]
  | ok o =>
    cases o with
    | none =>
      obtain ⟨hil, hsv⟩ := runInteractive_result_ok env t
        (by simpa [OIDCToken, hct, withState] using hres)
      refine ⟨hI t hil, ?_, fun _ => ?_⟩
      · intro ct h
        simp at h
      · simp [OIDCToken, hct, withState, hsv]
    | some ct =>
      cases hv : env.verifyCached ct with
      | ok =>
        have hct' : ct = t := by
          simpa [OIDCToken, hct, hv, withState] using hres
        subst hct'
        refine ⟨hC ct hct hv, ?_, ?_⟩
        · intro ct' h hv'
          simp only [Except.ok.injEq, Option.some.injEq] at h
          subst h
          exact ⟨rfl, by simp [OIDCToken, hct, hv, withState]⟩
        · intro hn
          exact absurd ⟨ct, hct, hv⟩ hn
      | nonceMismatch =>
        cases hr : env.refreshExchange with
        | error e =>
          obtain ⟨hil, hsv⟩ := runInteractive_result_ok env t
            (by simpa [OIDCToken, hct, hv, runSilentRefresh, hr, withState]
              using hres)
          refine ⟨hI t hil, ?_, fun _ => ?_⟩
          · intro ct' h hv'
            simp only [Except.ok.injEq, Option.some.injEq] at h
            subst h
            rw [hv] at hv'
            simp at hv'
          · simp [OIDCToken, hct, hv, runSilentRefresh, hr, withState, hsv]
        | ok rt =>
          cases hvr : env.verifyRefreshed rt with
          | ok =>
            obtain ⟨hu, hsv⟩ := persist_result_ok env rt t
              (by simpa [OIDCToken, hct, hv, runSilentRefresh, hr, hvr,
                withState] using hres)
            subst hu
            refine ⟨hR t hr hvr, ?_, fun _ => ?_⟩
            · intro ct' h hv'
              simp only [Except.ok.injEq, Option.some.injEq] at h
              subst h
              rw [hv] at hv'
              simp at hv'
            · simp [OIDCToken, hct, hv, runSilentRefresh, hr, hvr,
                withState, hsv]
          | nonceMismatch =>
            obtain ⟨hil, hsv⟩ := runInteractive_result_ok env t
              (by simpa [OIDCToken, hct, hv, runSilentRefresh, hr, hvr,
                withState] using hres)
            refine ⟨hI t hil, ?_, fun _ => ?_⟩
            · intro ct' h hv'
              simp only [Except.ok.injEq, Option.some.injEq] at h
              subst h
              rw [hv] at hv'
              simp at hv'
            · simp [OIDCToken, hct, hv, runSilentRefresh, hr, hvr,
                withState, hsv]
          | otherFailure m =>
            obtain ⟨hil, hsv⟩ := runInteractive_result_ok env t
              (by simpa [OIDCToken, hct, hv, runSilentRefresh, hr, hvr,
                withState] using hres)
            refine ⟨hI t hil, ?_, fun _ => ?_⟩
            · intro ct' h hv'
              simp only [Except.ok.injEq, Option.some.injEq] at h
              subst h
              rw [hv] at hv'
              simp at hv'
            · simp [OIDCToken, hct, hv, runSilentRefresh, hr, hvr,
                withState, hsv]
      | otherFailure m =>
        obtain ⟨hil, hsv⟩ := runInteractive_result_ok env t
          (by simpa [OIDCToken, hct, hv, withState] using hres)
        refine ⟨hI t hil, ?_, fun _ => ?_⟩
        · intro ct' h hv'
          simp only [Except.ok.injEq, Option.some.injEq] at h
          subst h
          rw [hv] at hv'
          simp at hv'
        · simp [OIDCToken, hct, hv, withState, hsv]

/-- Sample token held by the cache in the witnesses. -/
def exCacheTok : Token :=
  { AccessToken := "access1", RefreshToken := "refresh1", IDToken := "id1" }

/-- Sample token produced by the interactive flow in the witnesses. -/
def exNewTok : Token :=
  { AccessToken := "access2", RefreshToken := "refresh2", IDToken := "id2" }

/-- Sample environment: empty cache, interactive login succeeds. -/
def exEnvColdStart : TokenSourceEnv :=
  { cacheToken := .ok none,
    verifyCached := fun _ => .otherFailure "unused",
    refreshExchange := .error "unused",
    verifyRefreshed := fun _ => .otherFailure "unused",
    interactiveLogin := .ok exNewTok,
    saveResult := .ok () }

/-- Sample environment: cached token verifies successfully (pure
cache-hit-valid path); every other collaborator would fail if used. -/
def exEnvCacheHit : TokenSourceEnv :=
  { cacheToken := .ok (some exCacheTok),
    verifyCached := fun _ => .ok,
    refreshExchange := .error "unused",
    verifyRefreshed := fun _ => .otherFailure "unused",
    interactiveLogin := .error "unused",
    saveResult := .error "unused" }

/-- Witness for C1 on both paths: the cold start saves the interactive
token exactly once, and the pure cache-hit-valid run returns the cached
token unchanged with no save at all. -/
theorem OIDCToken_save_invariant_witness :
    (OIDCToken exEnvColdStart).saves = [exNewTok] ∧
    ((OIDCToken exEnvCacheHit).result = .ok exCacheTok ∧
      (OIDCToken exEnvCacheHit).saves = []) :=
  ⟨(OIDCToken_save_invariant exEnvColdStart
      (fun t h _ => by simp [exEnvColdStart] at h)
      (fun t h _ => by simp [exEnvColdStart] at h)
      (fun t h => by
        simp only [exEnvColdStart, Except.ok.injEq] at h
        subst h
        decide)
      exNewTok rfl).2.2
    (fun hcv => by
      obtain ⟨t, h, _⟩ := hcv
      simp [exEnvColdStart] at h),
   ⟨rfl,
    ((OIDCToken_save_invariant exEnvCacheHit
      (fun t h _ => by
        simp only [exEnvCacheHit, Except.ok.injEq, Option.some.injEq] at h
        subst h
        decide)
      (fun t h _ => by simp [exEnvCacheHit] at h)
      (fun t h => by simp [exEnvCacheHit] at h)
      exCacheTok rfl).2.1 exCacheTok rfl rfl).2⟩⟩

/-- C7: the SilentRefresh state is entered exactly when the cache produced
a token whose verification failed with a nonce mismatch; any other cache-
hit verification failure routes directly to InteractiveLogin; and a
non-success refresh exchange also falls through to InteractiveLogin
instead of failing the call. -/
theorem OIDCToken_silentRefresh_gate (env : TokenSourceEnv) :
    (SMState.SilentRefresh ∈ (OIDCToken env).states ↔
      ∃ t, env.cacheToken = .ok (some t) ∧
        env.verifyCached t = .nonceMismatch) ∧
    (∀ t m, env.cacheToken = .ok (some t) →
      env.verifyCached t = .otherFailure m →
      OIDCToken env = withState .CacheLookup (runInteractive env)) ∧
    (∀ t e, env.cacheToken = .ok (some t) →
      env.verifyCached t = .nonceMismatch → env.refreshExchange = .error e →
      OIDCToken env = withState .CacheLookup
        (withState .SilentRefresh (runInteractive env))) := by
  refine ⟨⟨?_, ?_⟩, ?_, ?_⟩
  · intro h
    cases hct : env.cacheToken with
    | error e =>
      rw [show (OIDCToken env) = withState .CacheLookup (runInteractive env)
        by simp [OIDCToken, hct]] at h
      simp [withState] at h
      exact absurd h (silentRefresh_not_in_runInteractive env)
    | ok o =>
      cases o with
      | none =>
        rw [show (OIDCToken env) = withState .CacheLookup (runInteractive env)
          by simp [OIDCToken, hct]] at h
        simp [withState] at h
        exact absurd h (silentRefresh_not_in_runInteractive env)
      | some ct =>
        cases hv : env.verifyCached ct with
        | ok => simp [OIDCToken, hct, hv, withState] at h
        | nonceMismatch => exact ⟨ct, rfl, hv⟩
        | otherFailure m =>
          rw [show (OIDCToken env) = withState .CacheLookup (runInteractive env)
            by simp [OIDCToken, hct, hv]] at h
          simp [withState] at h
          exact absurd h (silentRefresh_not_in_runInteractive env)
  · rintro ⟨t, hct, hv⟩
    have : SMState.SilentRefresh ∈ (runSilentRefresh env).states :=
      silentRefresh_in_runSilentRefresh env
    simp [OIDCToken, hct, hv, withState]
    exact this
  · intro t m hct hv
    simp [OIDCToken, hct, hv]
  · intro t e hct hv hr
    simp [OIDCToken, hct, hv, runSilentRefresh, hr]

/-- Sample environment: cached token verifies with a nonce mismatch, the
refresh exchange gets a non-success HTTP response, interactive login
succeeds. -/
def exEnvWrongNonce : TokenSourceEnv :=
  { cacheToken := .ok (some exCacheTok),
    verifyCached := fun _ => .nonceMismatch,
    refreshExchange := .error "400 Bad Request",
    verifyRefreshed := fun _ => .ok,
    interactiveLogin := .ok exNewTok,
    saveResult := .ok () }

/-- Witness for C7: the wrong-nonce environment enters SilentRefresh, and
its failed refresh exchange falls through to InteractiveLogin. -/
theorem OIDCToken_silentRefresh_gate_witness :
    SMState.SilentRefresh ∈ (OIDCToken exEnvWrongNonce).states ∧
    OIDCToken exEnvWrongNonce = withState .CacheLookup
      (withState .SilentRefresh (runInteractive exEnvWrongNonce)) :=
  ⟨(OIDCToken_silentRefresh_gate exEnvWrongNonce).1.mpr ⟨exCacheTok, rfl, rfl⟩,
   (OIDCToken_silentRefresh_gate exEnvWrongNonce).2.2 exCacheTok
     "400 Bad Request" rfl rfl rfl⟩

/-- C8: the scrub operation re-saves exactly the token it produces, whose
IDToken is blanked while AccessToken and RefreshToken are identical to the
values read from the cache. -/
theorem clearIDToken_blanks_only_idToken (t : Token) :
    (clearIDToken t).2 = [(clearIDToken t).1] ∧
    (clearIDToken t).1.IDToken = "" ∧
    (clearIDToken t).1.AccessToken = t.AccessToken ∧
    (clearIDToken t).1.RefreshToken = t.RefreshToken := by
  simp [clearIDToken]

end Login
